import Mathlib

set_option autoImplicit false

/-!
Shallow embedding of `src/governor.go` (package `governor` of lakesite/ls-governor).

The package orchestrates per-application configuration lookup, datastore
descriptor assembly and web-service creation.  External collaborators
(go-toml trees, the ls-superbase storage engine, ls-config `Getenv`, the
process file system and environment) are modelled as explicit parameters;
Go runtime panics (nil-pointer dereference, failed type assertion) are made
visible as the `GoResult.crash` outcome.
-/

/-- Scalar values of the loaded TOML tree, as the external go-toml library
hands them back from `Tree.Get` (an `interface\x7b\x7d` in Go).  Only the
`str` constructor survives the `.(string)` type assertion in
`GetAppProperty`; any other constructor makes that assertion panic. -/
inductive TomlValue where
  | str (s : String)
  | int (n : Int)
  | bool (b : Bool)
  deriving DecidableEq, Repr

/-- The loaded configuration: the external go-toml `Tree`, modelled as a
finite association from full dotted key (for this package always
`app ++ "." ++ property`) to scalar value. -/
structure ConfigTree where
  entries : List (String × TomlValue)
  deriving DecidableEq, Repr

/-- Association-list lookup, first binding wins: the read side of a Go map
and of the modelled go-toml tree. -/
def assocGet {α : Type} : List (String × α) → String → Option α
  | [], _ => none
  | (k, v) :: rest, key => if k = key then some v else assocGet rest key

/-- Association-list update or insert: the write side of a Go map. -/
def assocPut {α : Type} : List (String × α) → String → α → List (String × α)
  | [], key, v => [(key, v)]
  | (k, w) :: rest, key, v =>
      if k = key then (key, v) :: rest else (k, w) :: assocPut rest key v

/-- Lookup of a dotted path in the loaded tree (`toml.Tree.Get`). -/
def ConfigTree.Get (t : ConfigTree) (key : String) : Option TomlValue :=
  assocGet t.entries key

/-- Outcome of a Go computation: a normal return, or a runtime panic
(`crash`) such as a nil-pointer dereference or a failed type assertion. -/
inductive GoResult (α : Type) where
  | ok (val : α)
  | crash
  deriving DecidableEq, Repr

/-- Modelled from the spec: the external storage engine (ls-superbase)
exposes connection establishment `connect(descriptor) -> ConnectionHandle |
ConnectionError`; `superbase.DBConfig.Init` requests it and its outcome is
not visible in this repository's sources. -/
inductive ConnResult where
  | handle (id : Nat)
  | connError (cause : String)
  deriving DecidableEq, Repr

/-- The per-application datastore descriptor `superbase.DBConfig`: the seven
string fields filled by `InitDatastore`, plus the opaque connection outcome
set by `Init` (modelled as `Conn`, `none` before any establishment
attempt).  Go zero values are the empty string and `none`. -/
structure DBConfig where
  Server : String := ""
  Port : String := ""
  Database : String := ""
  User : String := ""
  Password : String := ""
  Driver : String := ""
  Path : String := ""
  Conn : Option ConnResult := none
  deriving DecidableEq, Repr

/-- The manager state (`ManagerService` in src/governor.go:28-31): the
loaded config tree (`none` models the nil `*toml.Tree` before
`InitManager`) and the registry map from application name to descriptor. -/
structure ManagerService where
  Config : Option ConfigTree
  DBConfig : List (String × DBConfig)
  deriving DecidableEq, Repr

/-- The error message built by `fmt.Errorf` in `GetAppProperty`
(src/governor.go:39); it interpolates the property and the application
name. -/
def errMsg (app property : String) : String :=
  "Configuration missing \x27" ++ property ++ "\x27 section under [" ++ app
    ++ "] heading.\n"

/-- Embeds `ManagerService.GetAppProperty` (src/governor.go:35-41).  The Go
code calls `ms.Config.Get(app + "." + property)`: on a nil `Config` the
tree lookup dereferences nil and panics (`crash`); a present non-string
value makes the unchecked `.(string)` type assertion panic; a present
string is returned with a nil error; an absent path returns the empty
string together with the formatted error. -/
def GetAppProperty (ms : ManagerService) (app property : String) :
    GoResult (String × Option String) :=
  match ms.Config with
  | none => GoResult.crash
  | some cfg =>
    match cfg.Get (app ++ "." ++ property) with
    | some (TomlValue.str s) => GoResult.ok (s, none)
    | some _ => GoResult.crash
    | none => GoResult.ok ("", some (errMsg app property))

/-- Embeds `ManagerService.InitDatastore` (src/governor.go:45-65),
parametrized by the external engine's `connect` (see `ConnResult`).  The Go
code creates the registry entry when absent, assigns all seven fields from
`GetAppProperty` discarding each error with a blank identifier, calls
`Init()` on the assembled descriptor, and returns the local `success` flag,
which is set to `true` and never reassigned. -/
def InitDatastore (connect : DBConfig → ConnResult) (ms : ManagerService)
    (app : String) : GoResult (Bool × ManagerService) :=
  let db0 : DBConfig := (assocGet ms.DBConfig app).getD {}
  let success := true
  match GetAppProperty ms app "dbserver" with
  | GoResult.crash => GoResult.crash
  | GoResult.ok (server, _) =>
  match GetAppProperty ms app "dbport" with
  | GoResult.crash => GoResult.crash
  | GoResult.ok (port, _) =>
  match GetAppProperty ms app "database" with
  | GoResult.crash => GoResult.crash
  | GoResult.ok (database, _) =>
  match GetAppProperty ms app "dbuser" with
  | GoResult.crash => GoResult.crash
  | GoResult.ok (user, _) =>
  match GetAppProperty ms app "dbpassword" with
  | GoResult.crash => GoResult.crash
  | GoResult.ok (password, _) =>
  match GetAppProperty ms app "dbdriver" with
  | GoResult.crash => GoResult.crash
  | GoResult.ok (driver, _) =>
  match GetAppProperty ms app "dbpath" with
  | GoResult.crash => GoResult.crash
  | GoResult.ok (dbpath, _) =>
    let db1 : DBConfig :=
      { db0 with Server := server, Port := port, Database := database,
                 User := user, Password := password, Driver := driver,
                 Path := dbpath }
    let db2 : DBConfig := { db1 with Conn := some (connect db1) }
    GoResult.ok (success, { ms with DBConfig := assocPut ms.DBConfig app db2 })

/-- The process file system seen by `InitManager`: `statExists` models
`os.Stat` / `os.IsNotExist`, and `loadFile` models `toml.LoadFile`, whose
tree result is nil exactly when parsing fails (`none`); the Go code
discards the accompanying error with a blank identifier. -/
structure FileSystem where
  statExists : String → Bool
  loadFile : String → Option ConfigTree

/-- Outcome of running a step that may call `log.Fatalf`: `fatal` terminates
the process, `continued` carries the manager state execution proceeds
with. -/
inductive RunOutcome where
  | fatal (msg : String)
  | continued (ms : ManagerService)
  deriving DecidableEq, Repr

/-- Embeds `ManagerService.InitManager` (src/governor.go:68-75).  A missing
file is fatal via `log.Fatalf`; otherwise `ms.Config, _ = toml.LoadFile(...)`
stores whatever tree the parser returned (nil on a parse error, the error
being discarded) and resets the registry to an empty map. -/
def InitManager (fs : FileSystem) (ms : ManagerService) (cfgfile : String) :
    RunOutcome :=
  if fs.statExists cfgfile = false then
    RunOutcome.fatal ("File \x27" ++ cfgfile ++ "\x27 does not exist.\n")
  else
    RunOutcome.continued { Config := fs.loadFile cfgfile, DBConfig := [] }

/-- The process environment seen by `CreateAPI`: a partial map from
environment-variable name to value. -/
structure Env where
  lookupEnv : String → Option String

/-- Modelled from the spec: ls-config `Getenv(key, fallback)` returns the
variable's value when it is set and the fallback otherwise (the spec: if
either variable is unset, substitutes a fixed default). -/
def Getenv (env : Env) (key fallback : String) : String :=
  match env.lookupEnv key with
  | some v => v
  | none => fallback

/-- The ls-fibre web service handle: `fibre.NewWebService(app, address)`
records the application name and the listening address. -/
structure WebService where
  name : String
  address : String
  deriving DecidableEq, Repr

/-- Embeds the `API` struct (src/governor.go:18-21): a web service paired
with the manager service. -/
structure API where
  WebService : WebService
  ManagerService : ManagerService
  deriving DecidableEq, Repr

/-- Embeds `NewAPI` (src/governor.go:23-25). -/
def NewAPI (ws : WebService) (ms : ManagerService) : API :=
  { WebService := ws, ManagerService := ms }

/-- Embeds `ManagerService.CreateAPI` (src/governor.go:79-92): upper-cases
the application name, resolves `<UA>_HOST` / `<UA>_PORT` through `Getenv`
with defaults `127.0.0.1` / `7990`, joins them with a colon and wraps the
web service and manager into an `API`. -/
def CreateAPI (env : Env) (ms : ManagerService) (app : String) : API :=
  let ua := app.toUpper
  let address := Getenv env (ua ++ "_HOST") "127.0.0.1" ++ ":"
    ++ Getenv env (ua ++ "_PORT") "7990"
  let ws : WebService := { name := app, address := address }
  NewAPI ws ms

/-! ### Helpers for stating the claims -/

/-- The string `GetAppProperty` leaves in a descriptor field once its error
is discarded: the value when the path holds a string, the Go zero value
otherwise. -/
def strOrEmpty : Option TomlValue → String
  | some (TomlValue.str s) => s
  | _ => ""

/-- A dotted key is well typed for the resolver when it is absent or holds a
string; any other value makes the `.(string)` assertion panic. -/
def wellTypedKey (cfg : ConfigTree) (key : String) : Bool :=
  match cfg.Get key with
  | some (TomlValue.str _) => true
  | none => true
  | some _ => false

/-- The error component `GetAppProperty` returns for a well-typed key:
present means a nil error, absent means the formatted message. -/
def errOf (cfg : ConfigTree) (app property : String) : Option String :=
  match cfg.Get (app ++ "." ++ property) with
  | none => some (errMsg app property)
  | some _ => none

/-- The boolean `InitDatastore` returned, when it returned at all. -/
def returnOf (r : GoResult (Bool × ManagerService)) : Option Bool :=
  match r with
  | GoResult.ok (b, _) => some b
  | GoResult.crash => none

/-- The manager state after `InitDatastore`, when it returned at all. -/
def stateOf (r : GoResult (Bool × ManagerService)) : Option ManagerService :=
  match r with
  | GoResult.ok (_, ms) => some ms
  | GoResult.crash => none

/-- The registry entry for `app` after `InitDatastore` ran on `ms`. -/
def dbAfter (connect : DBConfig → ConnResult) (ms : ManagerService)
    (app : String) : Option DBConfig :=
  (stateOf (InitDatastore connect ms app)).bind fun s => assocGet s.DBConfig app

/-- The seven descriptor fields, in the order `InitDatastore` assigns
them. -/
def fieldsOf (db : DBConfig) : List String :=
  [db.Server, db.Port, db.Database, db.User, db.Password, db.Driver, db.Path]

/-- The seven values a configuration prescribes for an application: each of
the fixed property names, resolved to its string value or defaulted to the
empty string. -/
def sevenOf (cfg : ConfigTree) (app : String) : List String :=
  [strOrEmpty (cfg.Get (app ++ "." ++ "dbserver")),
   strOrEmpty (cfg.Get (app ++ "." ++ "dbport")),
   strOrEmpty (cfg.Get (app ++ "." ++ "database")),
   strOrEmpty (cfg.Get (app ++ "." ++ "dbuser")),
   strOrEmpty (cfg.Get (app ++ "." ++ "dbpassword")),
   strOrEmpty (cfg.Get (app ++ "." ++ "dbdriver")),
   strOrEmpty (cfg.Get (app ++ "." ++ "dbpath"))]

/-- The descriptor after the seven field assignments of `InitDatastore`,
starting from the prior entry `old` (or a fresh zero descriptor). -/
def builtFields (old : Option DBConfig) (cfg : ConfigTree) (app : String) :
    DBConfig :=
  { old.getD {} with
    Server := strOrEmpty (cfg.Get (app ++ "." ++ "dbserver")),
    Port := strOrEmpty (cfg.Get (app ++ "." ++ "dbport")),
    Database := strOrEmpty (cfg.Get (app ++ "." ++ "database")),
    User := strOrEmpty (cfg.Get (app ++ "." ++ "dbuser")),
    Password := strOrEmpty (cfg.Get (app ++ "." ++ "dbpassword")),
    Driver := strOrEmpty (cfg.Get (app ++ "." ++ "dbdriver")),
    Path := strOrEmpty (cfg.Get (app ++ "." ++ "dbpath")) }

/-- The descriptor `InitDatastore` stores: the assembled fields, with the
connection outcome of `Init` on them. -/
def builtDB (connect : DBConfig → ConnResult) (old : Option DBConfig)
    (cfg : ConfigTree) (app : String) : DBConfig :=
  { builtFields old cfg app with
    Conn := some (connect (builtFields old cfg app)) }

/-- The manager state `InitDatastore` leaves behind on a loaded, well-typed
configuration: the registry updated at `app` with the rebuilt
descriptor. -/
def putBuilt (connect : DBConfig → ConnResult) (ms : ManagerService)
    (cfg : ConfigTree) (app : String) : ManagerService :=
  let db := builtDB connect (assocGet ms.DBConfig app) cfg app
  { ms with DBConfig := assocPut ms.DBConfig app db }

/-! ### Concrete inputs used by the witnesses and counterexamples -/

/-- The configuration of the spec's end-to-end scenario 1: section `shop`
with `dbdriver` and `dbpath` set, the other five properties absent. -/
def cfgShop : ConfigTree :=
  { entries := [("shop.dbdriver", TomlValue.str "sqlite3"),
                ("shop.dbpath", TomlValue.str "shop.db")] }

/-- A changed configuration for `shop`: a different driver and a server,
no path. -/
def cfgShop2 : ConfigTree :=
  { entries := [("shop.dbdriver", TomlValue.str "postgres"),
                ("shop.dbserver", TomlValue.str "db.example.org")] }

/-- A configuration whose `shop.dbport` is an integer, not a string. -/
def cfgInt : ConfigTree :=
  { entries := [("shop.dbport", TomlValue.int 5432)] }

/-- A configuration where `shop.dbserver` is present but set to the empty
string. -/
def cfgEmptyStr : ConfigTree :=
  { entries := [("shop.dbserver", TomlValue.str "")] }

/-- The empty configuration: no section for any application. -/
def cfgNone : ConfigTree := { entries := [] }

/-- A manager that loaded the scenario-1 configuration. -/
def msShop : ManagerService := { Config := some cfgShop, DBConfig := [] }

/-- A storage engine that always accepts the descriptor. -/
def connectOk : DBConfig → ConnResult := fun _ => ConnResult.handle 0

/-- A storage engine that always rejects the descriptor. -/
def connectFail : DBConfig → ConnResult :=
  fun _ => ConnResult.connError "connection refused"

/-- The manager state after registering `shop` under `cfgShop`. -/
def msShopAfter : ManagerService :=
  match InitDatastore connectOk msShop "shop" with
  | GoResult.ok (_, s) => s
  | GoResult.crash => msShop

/-- A fresh manager that loaded the changed configuration `cfgShop2`. -/
def msShop2Fresh : ManagerService :=
  { Config := some cfgShop2, DBConfig := [] }

/-- A manager holding the changed configuration together with the stale
registry entry left by the first registration of `shop` under `cfgShop`. -/
def msShop2Stale : ManagerService :=
  { Config := some cfgShop2, DBConfig := msShopAfter.DBConfig }

/-- A manager whose configuration sets `shop.dbserver` to the empty
string. -/
def msEmptyStr : ManagerService :=
  { Config := some cfgEmptyStr, DBConfig := [] }

/-- A manager whose configuration has no section at all. -/
def msAbsent : ManagerService :=
  { Config := some cfgNone, DBConfig := [] }

/-- A configuration whose only binding for `blog` is an explicitly empty
`dbuser`. -/
def cfgBlogEmpty : ConfigTree :=
  { entries := [("blog.dbuser", TomlValue.str "")] }

/-- A registered, connected descriptor for the application `blog`. -/
def dbBlog : DBConfig :=
  { Driver := "sqlite3", Path := "blog.db", Conn := some (ConnResult.handle 7) }

/-- A manager with an empty configuration and an existing registry entry
for `blog`. -/
def msBlogReg : ManagerService :=
  { Config := some cfgNone, DBConfig := [("blog", dbBlog)] }

/-- A file system on which every path exists but no file parses: the
situation `toml.LoadFile` reports with a nil tree and an error. -/
def fsParseError : FileSystem :=
  { statExists := fun _ => true, loadFile := fun _ => none }

/-- A file system on which no path exists. -/
def fsMissing : FileSystem :=
  { statExists := fun _ => false, loadFile := fun _ => none }

/-! ### Shared lemmas -/

theorem assocGet_put_self {α : Type} (m : List (String × α)) (k : String)
    (v : α) : assocGet (assocPut m k v) k = some v := by
  induction m with
  | nil => simp [assocGet, assocPut]
  | cons hd tl ih =>
    obtain ⟨k0, v0⟩ := hd
    by_cases h : k0 = k
    · simp [assocGet, assocPut, h]
    · simp [assocGet, assocPut, h, ih]

theorem assocGet_put_other {α : Type} (m : List (String × α)) (k k2 : String)
    (v : α) (h : k2 ≠ k) :
    assocGet (assocPut m k v) k2 = assocGet m k2 := by
  induction m with
  | nil =>
    simp only [assocPut, assocGet]
    rw [if_neg (Ne.symm h)]
  | cons hd tl ih =>
    obtain ⟨k0, v0⟩ := hd
    by_cases hk : k0 = k
    · subst hk
      simp only [assocPut, if_pos rfl, assocGet]
      rw [if_neg (Ne.symm h), if_neg (Ne.symm h)]
    · simp only [assocPut, if_neg hk]
      by_cases hk2 : k0 = k2
      · simp [assocGet, hk2]
      · simp [assocGet, hk2, ih]

theorem getAppProperty_wellTyped (ms : ManagerService) (cfg : ConfigTree)
    (app p : String) (hc : ms.Config = some cfg)
    (hwt : wellTypedKey cfg (app ++ "." ++ p) = true) :
    GetAppProperty ms app p =
      GoResult.ok (strOrEmpty (cfg.Get (app ++ "." ++ p)), errOf cfg app p) := by
  unfold GetAppProperty
  rw [hc]
  unfold wellTypedKey at hwt
  cases h : cfg.Get (app ++ "." ++ p) with
  | none => simp [strOrEmpty, errOf, h]
  | some v =>
    cases v with
    | str s => simp [strOrEmpty, errOf, h]
    | int n => rw [h] at hwt; simp at hwt
    | bool b => rw [h] at hwt; simp at hwt

theorem initDatastore_closed (connect : DBConfig → ConnResult)
    (ms : ManagerService) (cfg : ConfigTree) (app : String)
    (hc : ms.Config = some cfg)
    (h1 : wellTypedKey cfg (app ++ "." ++ "dbserver") = true)
    (h2 : wellTypedKey cfg (app ++ "." ++ "dbport") = true)
    (h3 : wellTypedKey cfg (app ++ "." ++ "database") = true)
    (h4 : wellTypedKey cfg (app ++ "." ++ "dbuser") = true)
    (h5 : wellTypedKey cfg (app ++ "." ++ "dbpassword") = true)
    (h6 : wellTypedKey cfg (app ++ "." ++ "dbdriver") = true)
    (h7 : wellTypedKey cfg (app ++ "." ++ "dbpath") = true) :
    InitDatastore connect ms app =
      GoResult.ok (true, putBuilt connect ms cfg app) := by
  unfold InitDatastore
  rw [getAppProperty_wellTyped ms cfg app "dbserver" hc h1,
      getAppProperty_wellTyped ms cfg app "dbport" hc h2,
      getAppProperty_wellTyped ms cfg app "database" hc h3,
      getAppProperty_wellTyped ms cfg app "dbuser" hc h4,
      getAppProperty_wellTyped ms cfg app "dbpassword" hc h5,
      getAppProperty_wellTyped ms cfg app "dbdriver" hc h6,
      getAppProperty_wellTyped ms cfg app "dbpath" hc h7]
  simp [putBuilt, builtDB, builtFields]

theorem returnOf_initDatastore (connect : DBConfig → ConnResult)
    (ms : ManagerService) (cfg : ConfigTree) (app : String)
    (hc : ms.Config = some cfg)
    (h1 : wellTypedKey cfg (app ++ "." ++ "dbserver") = true)
    (h2 : wellTypedKey cfg (app ++ "." ++ "dbport") = true)
    (h3 : wellTypedKey cfg (app ++ "." ++ "database") = true)
    (h4 : wellTypedKey cfg (app ++ "." ++ "dbuser") = true)
    (h5 : wellTypedKey cfg (app ++ "." ++ "dbpassword") = true)
    (h6 : wellTypedKey cfg (app ++ "." ++ "dbdriver") = true)
    (h7 : wellTypedKey cfg (app ++ "." ++ "dbpath") = true) :
    returnOf (InitDatastore connect ms app) = some true := by
  rw [initDatastore_closed connect ms cfg app hc h1 h2 h3 h4 h5 h6 h7]
  rfl

theorem dbAfter_fields (connect : DBConfig → ConnResult)
    (ms : ManagerService) (cfg : ConfigTree) (app : String)
    (hc : ms.Config = some cfg)
    (h1 : wellTypedKey cfg (app ++ "." ++ "dbserver") = true)
    (h2 : wellTypedKey cfg (app ++ "." ++ "dbport") = true)
    (h3 : wellTypedKey cfg (app ++ "." ++ "database") = true)
    (h4 : wellTypedKey cfg (app ++ "." ++ "dbuser") = true)
    (h5 : wellTypedKey cfg (app ++ "." ++ "dbpassword") = true)
    (h6 : wellTypedKey cfg (app ++ "." ++ "dbdriver") = true)
    (h7 : wellTypedKey cfg (app ++ "." ++ "dbpath") = true) :
    (dbAfter connect ms app).map fieldsOf = some (sevenOf cfg app) := by
  unfold dbAfter stateOf
  rw [initDatastore_closed connect ms cfg app hc h1 h2 h3 h4 h5 h6 h7]
  simp [putBuilt, assocGet_put_self, fieldsOf, builtDB, builtFields, sevenOf]

theorem builtFields_congr (old : Option DBConfig) (cfg cfg2 : ConfigTree)
    (app : String) (h : sevenOf cfg app = sevenOf cfg2 app) :
    builtFields old cfg app = builtFields old cfg2 app := by
  unfold sevenOf at h
  simp only [List.cons.injEq, and_true] at h
  obtain ⟨e1, e2, e3, e4, e5, e6, e7⟩ := h
  unfold builtFields
  rw [e1, e2, e3, e4, e5, e6, e7]

theorem builtDB_congr (connect : DBConfig → ConnResult) (old : Option DBConfig)
    (cfg cfg2 : ConfigTree) (app : String)
    (h : sevenOf cfg app = sevenOf cfg2 app) :
    builtDB connect old cfg app = builtDB connect old cfg2 app := by
  unfold builtDB
  rw [builtFields_congr old cfg cfg2 app h]

/-! ### Claim theorems -/

/-- C1: on a loaded configuration, `GetAppProperty` returns the configured
string value with a nil error when section `app` holds `k`, returns the
formatted error carrying both the application and the property name exactly
when the dotted path is absent, and never turns an absent value into a
successful empty-string result. -/
theorem c1_resolve_present_absent (ms : ManagerService) (cfg : ConfigTree)
    (app k : String) (hc : ms.Config = some cfg) :
    (∀ v, cfg.Get (app ++ "." ++ k) = some (TomlValue.str v) →
        GetAppProperty ms app k = GoResult.ok (v, none))
  ∧ (cfg.Get (app ++ "." ++ k) = none →
        GetAppProperty ms app k = GoResult.ok ("", some (errMsg app k)))
  ∧ (∀ s e, GetAppProperty ms app k = GoResult.ok (s, some e) →
        cfg.Get (app ++ "." ++ k) = none ∧ s = "" ∧ e = errMsg app k) := by
  refine ⟨?_, ?_, ?_⟩
  · intro v hv
    simp [GetAppProperty, hc, hv]
  · intro hn
    simp [GetAppProperty, hc, hn]
  · intro s e he
    cases h : cfg.Get (app ++ "." ++ k) with
    | none =>
      have hval : GetAppProperty ms app k =
          GoResult.ok ("", some (errMsg app k)) := by
        simp [GetAppProperty, hc, h]
      rw [hval] at he
      injection he with h1
      injection h1 with hs ho
      injection ho with he2
      exact ⟨rfl, hs.symm, he2.symm⟩
    | some v =>
      cases v with
      | str s2 =>
        have hval : GetAppProperty ms app k = GoResult.ok (s2, none) := by
          simp [GetAppProperty, hc, h]
        rw [hval] at he
        injection he with h1
        injection h1 with hs ho
        exact Option.noConfusion ho
      | int n =>
        have hval : GetAppProperty ms app k = GoResult.crash := by
          simp [GetAppProperty, hc, h]
        rw [hval] at he
        exact GoResult.noConfusion he
      | bool b =>
        have hval : GetAppProperty ms app k = GoResult.crash := by
          simp [GetAppProperty, hc, h]
        rw [hval] at he
        exact GoResult.noConfusion he

/-- C1 witness: under the scenario-1 configuration, `shop.dbdriver` resolves
to its configured value with a nil error, and the absent `shop.dbserver`
yields the formatted error carrying both names. -/
theorem c1_resolve_present_absent_w :
    GetAppProperty msShop "shop" "dbdriver" = GoResult.ok ("sqlite3", none)
  ∧ GetAppProperty msShop "shop" "dbserver" =
      GoResult.ok ("", some (errMsg "shop" "dbserver")) :=
  ⟨(c1_resolve_present_absent msShop cfgShop "shop" "dbdriver" rfl).1
      "sqlite3" (by decide),
   (c1_resolve_present_absent msShop cfgShop "shop" "dbserver" rfl).2.1
      (by decide)⟩

/-- C5: the listening address `CreateAPI` computes is `host:port`, where the
host is the value of the environment variable obtained by upper-casing the
application name and appending the host suffix when it is set and the
loopback default otherwise, and likewise for the port with default 7990;
the right-hand side mentions only the application name and the environment,
so the address is a deterministic function of the two. -/
theorem c5_create_api_address (env : Env) (ms : ManagerService)
    (app : String) :
    (CreateAPI env ms app).WebService.address =
      (env.lookupEnv (app.toUpper ++ "_HOST")).getD "127.0.0.1" ++ ":"
        ++ (env.lookupEnv (app.toUpper ++ "_PORT")).getD "7990" := by
  unfold CreateAPI NewAPI Getenv
  cases hh : env.lookupEnv (app.toUpper ++ "_HOST") <;>
    cases hp : env.lookupEnv (app.toUpper ++ "_PORT") <;>
      simp [hh, hp]

/-- C7 counterexample: with `shop.dbport` configured as the integer 5432,
the resolver panics on the unchecked string type assertion instead of
returning the not-found error the claim promises. -/
theorem c7_nonstring_cex :
    GetAppProperty { Config := some cfgInt, DBConfig := [] } "shop" "dbport"
      = GoResult.crash
  ∧ GetAppProperty { Config := some cfgInt, DBConfig := [] } "shop" "dbport"
      ≠ GoResult.ok ("", some (errMsg "shop" "dbport")) := by
  decide

/-- C7 amended: on a loaded configuration, a path that is present but whose
value is not a string makes `GetAppProperty` panic on the `.(string)` type
assertion (crash), rather than return the not-found error. -/
theorem c7_nonstring_crashes (ms : ManagerService) (cfg : ConfigTree)
    (app k : String) (hc : ms.Config = some cfg)
    (h : wellTypedKey cfg (app ++ "." ++ k) = false) :
    GetAppProperty ms app k = GoResult.crash := by
  unfold wellTypedKey at h
  cases hg : cfg.Get (app ++ "." ++ k) with
  | none => rw [hg] at h; simp at h
  | some v =>
    rw [hg] at h
    cases v with
    | str s => simp at h
    | int n => simp [GetAppProperty, hc, hg]
    | bool b => simp [GetAppProperty, hc, hg]

/-- C7 witness: the amended statement evaluated on the integer-valued
`shop.dbport` configuration. -/
theorem c7_nonstring_crashes_w :
    GetAppProperty { Config := some cfgInt, DBConfig := [] } "shop" "dbport"
      = GoResult.crash :=
  c7_nonstring_crashes { Config := some cfgInt, DBConfig := [] } cfgInt
    "shop" "dbport" rfl (by decide)

/-- C8 counterexample: querying a manager whose configuration was never
initialized dereferences the nil tree and panics; it is an unguarded crash,
not the reported failure the claim promises. -/
theorem c8_before_load_cex :
    GetAppProperty { Config := none, DBConfig := [] } "shop" "dbdriver"
      = GoResult.crash
  ∧ GetAppProperty { Config := none, DBConfig := [] } "shop" "dbdriver"
      ≠ GoResult.ok ("", some (errMsg "shop" "dbdriver"))
  ∧ GetAppProperty { Config := none, DBConfig := [] } "shop" "dbdriver"
      ≠ GoResult.ok ("", none) := by
  decide

/-- C8 amended: a query before any configuration is loaded always panics on
the nil configuration tree — it never returns a successful empty string,
but the failure is a crash, not a returned error. -/
theorem c8_before_load_crashes (ms : ManagerService) (app k : String)
    (h : ms.Config = none) :
    GetAppProperty ms app k = GoResult.crash := by
  unfold GetAppProperty
  rw [h]

/-- C8 witness: the amended statement evaluated on an uninitialized
manager. -/
theorem c8_before_load_crashes_w :
    GetAppProperty { Config := none, DBConfig := [] } "blog" "dbuser"
      = GoResult.crash :=
  c8_before_load_crashes { Config := none, DBConfig := [] } "blog" "dbuser" rfl

/-- C2: `InitDatastore` reports success even when the storage engine refuses
the connection — on the scenario-1 configuration with an always-refusing
engine, the returned flag is `true` while the stored connection outcome is
the refusal.  The local `success` flag at src/governor.go:50 is never
reassigned, contradicting the doc comment at src/governor.go:44. -/
theorem c2_success_flag_unconditional :
    returnOf (InitDatastore connectFail msShop "shop") = some true
  ∧ ((dbAfter connectFail msShop "shop").bind fun d => d.Conn)
      = some (ConnResult.connError "connection refused") := by
  decide

/-- C3: on a loaded configuration whose seven datastore properties for `app`
are each either absent or a string, `InitDatastore` succeeds (never aborted
by a missing property) and the stored descriptor carries, field by field,
the configured value of `dbserver, dbport, database, dbuser, dbpassword,
dbdriver, dbpath` when present and the empty string when absent. -/
theorem c3_seven_fields (connect : DBConfig → ConnResult)
    (ms : ManagerService) (cfg : ConfigTree) (app : String)
    (hc : ms.Config = some cfg)
    (h1 : wellTypedKey cfg (app ++ "." ++ "dbserver") = true)
    (h2 : wellTypedKey cfg (app ++ "." ++ "dbport") = true)
    (h3 : wellTypedKey cfg (app ++ "." ++ "database") = true)
    (h4 : wellTypedKey cfg (app ++ "." ++ "dbuser") = true)
    (h5 : wellTypedKey cfg (app ++ "." ++ "dbpassword") = true)
    (h6 : wellTypedKey cfg (app ++ "." ++ "dbdriver") = true)
    (h7 : wellTypedKey cfg (app ++ "." ++ "dbpath") = true) :
    returnOf (InitDatastore connect ms app) = some true
  ∧ (dbAfter connect ms app).map fieldsOf = some (sevenOf cfg app) :=
  ⟨returnOf_initDatastore connect ms cfg app hc h1 h2 h3 h4 h5 h6 h7,
   dbAfter_fields connect ms cfg app hc h1 h2 h3 h4 h5 h6 h7⟩

/-- C3 witness: the scenario-1 configuration sets only `dbdriver` and
`dbpath`; registration succeeds and the descriptor holds those two values
with the other five fields empty. -/
theorem c3_seven_fields_w :
    returnOf (InitDatastore connectOk msShop "shop") = some true
  ∧ (dbAfter connectOk msShop "shop").map fieldsOf
      = some (sevenOf cfgShop "shop") :=
  c3_seven_fields connectOk msShop cfgShop "shop" rfl (by decide) (by decide)
    (by decide) (by decide) (by decide) (by decide) (by decide)

/-- C4: registration is structurally idempotent and re-registration is a
full overwrite — for any two managers holding the same loaded, well-typed
configuration (regardless of what their registries already contain, in
particular a stale entry from an earlier registration under a different
configuration), the descriptor `InitDatastore` stores carries exactly the
seven values the current configuration prescribes, so both calls agree
field by field and nothing stale is carried over. -/
theorem c4_reregistration_overwrites (connect : DBConfig → ConnResult)
    (ms ms2 : ManagerService) (cfg : ConfigTree) (app : String)
    (hc : ms.Config = some cfg) (hc2 : ms2.Config = some cfg)
    (h1 : wellTypedKey cfg (app ++ "." ++ "dbserver") = true)
    (h2 : wellTypedKey cfg (app ++ "." ++ "dbport") = true)
    (h3 : wellTypedKey cfg (app ++ "." ++ "database") = true)
    (h4 : wellTypedKey cfg (app ++ "." ++ "dbuser") = true)
    (h5 : wellTypedKey cfg (app ++ "." ++ "dbpassword") = true)
    (h6 : wellTypedKey cfg (app ++ "." ++ "dbdriver") = true)
    (h7 : wellTypedKey cfg (app ++ "." ++ "dbpath") = true) :
    (dbAfter connect ms app).map fieldsOf = some (sevenOf cfg app)
  ∧ (dbAfter connect ms app).map fieldsOf
      = (dbAfter connect ms2 app).map fieldsOf := by
  have ha := dbAfter_fields connect ms cfg app hc h1 h2 h3 h4 h5 h6 h7
  have hb := dbAfter_fields connect ms2 cfg app hc2 h1 h2 h3 h4 h5 h6 h7
  exact ⟨ha, ha.trans hb.symm⟩

/-- C4 witness: after `shop` was first registered under the old
configuration, re-registering under the changed configuration from a fresh
manager and from the manager carrying the stale entry yields the same
fields, namely exactly the changed configuration's values. -/
theorem c4_reregistration_overwrites_w :
    (dbAfter connectOk msShop2Fresh "shop").map fieldsOf
      = some (sevenOf cfgShop2 "shop")
  ∧ (dbAfter connectOk msShop2Fresh "shop").map fieldsOf
      = (dbAfter connectOk msShop2Stale "shop").map fieldsOf :=
  c4_reregistration_overwrites connectOk msShop2Fresh msShop2Stale cfgShop2
    "shop" rfl rfl (by decide) (by decide) (by decide) (by decide) (by decide)
    (by decide) (by decide)

/-- C6: on a file that exists but cannot be parsed, `InitManager` continues
with a nil configuration tree and a freshly reset registry — a partially
configured state — instead of failing terminally; only the nonexistent-file
case terminates the process. -/
theorem c6_parse_error_swallowed :
    InitManager fsParseError { Config := none, DBConfig := [] } "app.toml"
      = RunOutcome.continued { Config := none, DBConfig := [] }
  ∧ InitManager fsMissing { Config := none, DBConfig := [] } "app.toml"
      = RunOutcome.fatal ("File \x27app.toml\x27 does not exist.\n") := by
  decide

/-- C9 counterexample: a configuration that sets `shop.dbserver` to the
empty string and one that omits it produce identical build outcomes — the
same returned flag and the same stored descriptor — so the two are not
distinguishable, contrary to the claim. -/
theorem c9_indistinguishable_cex :
    returnOf (InitDatastore connectOk msEmptyStr "shop")
      = returnOf (InitDatastore connectOk msAbsent "shop")
  ∧ dbAfter connectOk msEmptyStr "shop" = dbAfter connectOk msAbsent "shop" := by
  decide

/-- C9 amended: the build outcome of `InitDatastore` (returned flag and
stored descriptor) is a function of the resolved-or-empty values of the
seven properties alone, so a property explicitly set to the empty string
and an absent property yield identical outcomes; no part of the result
records which fields were actually resolved. -/
theorem c9_outcome_mentions_values_only (connect : DBConfig → ConnResult)
    (ms ms2 : ManagerService) (cfg cfg2 : ConfigTree) (app : String)
    (hc : ms.Config = some cfg) (hc2 : ms2.Config = some cfg2)
    (hdb : ms.DBConfig = ms2.DBConfig)
    (h1 : wellTypedKey cfg (app ++ "." ++ "dbserver") = true)
    (h2 : wellTypedKey cfg (app ++ "." ++ "dbport") = true)
    (h3 : wellTypedKey cfg (app ++ "." ++ "database") = true)
    (h4 : wellTypedKey cfg (app ++ "." ++ "dbuser") = true)
    (h5 : wellTypedKey cfg (app ++ "." ++ "dbpassword") = true)
    (h6 : wellTypedKey cfg (app ++ "." ++ "dbdriver") = true)
    (h7 : wellTypedKey cfg (app ++ "." ++ "dbpath") = true)
    (g1 : wellTypedKey cfg2 (app ++ "." ++ "dbserver") = true)
    (g2 : wellTypedKey cfg2 (app ++ "." ++ "dbport") = true)
    (g3 : wellTypedKey cfg2 (app ++ "." ++ "database") = true)
    (g4 : wellTypedKey cfg2 (app ++ "." ++ "dbuser") = true)
    (g5 : wellTypedKey cfg2 (app ++ "." ++ "dbpassword") = true)
    (g6 : wellTypedKey cfg2 (app ++ "." ++ "dbdriver") = true)
    (g7 : wellTypedKey cfg2 (app ++ "." ++ "dbpath") = true)
    (hsame : sevenOf cfg app = sevenOf cfg2 app) :
    returnOf (InitDatastore connect ms app)
      = returnOf (InitDatastore connect ms2 app)
  ∧ dbAfter connect ms app = dbAfter connect ms2 app := by
  have e1 := initDatastore_closed connect ms cfg app hc h1 h2 h3 h4 h5 h6 h7
  have e2 := initDatastore_closed connect ms2 cfg2 app hc2 g1 g2 g3 g4 g5 g6 g7
  have hget : assocGet ms.DBConfig app = assocGet ms2.DBConfig app := by
    rw [hdb]
  have hdbeq : builtDB connect (assocGet ms.DBConfig app) cfg app
      = builtDB connect (assocGet ms2.DBConfig app) cfg2 app := by
    rw [hget, builtDB_congr connect (assocGet ms2.DBConfig app) cfg cfg2 app hsame]
  constructor
  · rw [e1, e2]
    rfl
  · unfold dbAfter stateOf
    rw [e1, e2]
    simp [putBuilt, assocGet_put_self, hdbeq]

/-- C9 witness: the amended statement evaluated on a `blog` configuration
with an explicitly empty `dbuser` against the empty configuration. -/
theorem c9_outcome_mentions_values_only_w :
    returnOf (InitDatastore connectOk
        { Config := some cfgBlogEmpty, DBConfig := [] } "blog")
      = returnOf (InitDatastore connectOk
        { Config := some cfgNone, DBConfig := [] } "blog")
  ∧ dbAfter connectOk { Config := some cfgBlogEmpty, DBConfig := [] } "blog"
      = dbAfter connectOk { Config := some cfgNone, DBConfig := [] } "blog" :=
  c9_outcome_mentions_values_only connectOk
    { Config := some cfgBlogEmpty, DBConfig := [] }
    { Config := some cfgNone, DBConfig := [] } cfgBlogEmpty cfgNone "blog"
    rfl rfl rfl (by decide) (by decide) (by decide) (by decide) (by decide)
    (by decide) (by decide) (by decide) (by decide) (by decide) (by decide)
    (by decide) (by decide) (by decide) (by decide)

/-- C10: on a loaded, well-typed configuration, `InitDatastore app` leaves
the configuration tree untouched, leaves the registry entry of every other
application (its connection outcome included) exactly as it was, and always
leaves an entry present for `app` itself — also when the configuration has
no section for `app`. -/
theorem c10_frame (connect : DBConfig → ConnResult) (ms : ManagerService)
    (cfg : ConfigTree) (app other : String)
    (hc : ms.Config = some cfg)
    (h1 : wellTypedKey cfg (app ++ "." ++ "dbserver") = true)
    (h2 : wellTypedKey cfg (app ++ "." ++ "dbport") = true)
    (h3 : wellTypedKey cfg (app ++ "." ++ "database") = true)
    (h4 : wellTypedKey cfg (app ++ "." ++ "dbuser") = true)
    (h5 : wellTypedKey cfg (app ++ "." ++ "dbpassword") = true)
    (h6 : wellTypedKey cfg (app ++ "." ++ "dbdriver") = true)
    (h7 : wellTypedKey cfg (app ++ "." ++ "dbpath") = true)
    (hne : other ≠ app) :
    (stateOf (InitDatastore connect ms app)).map (fun s => s.Config)
      = some ms.Config
  ∧ (stateOf (InitDatastore connect ms app)).map
      (fun s => assocGet s.DBConfig other) = some (assocGet ms.DBConfig other)
  ∧ (stateOf (InitDatastore connect ms app)).map
      (fun s => (assocGet s.DBConfig app).isSome) = some true := by
  have e := initDatastore_closed connect ms cfg app hc h1 h2 h3 h4 h5 h6 h7
  unfold stateOf
  rw [e]
  refine ⟨?_, ?_, ?_⟩
  · simp [putBuilt]
  · simp [putBuilt, assocGet_put_other _ _ _ _ hne]
  · simp [putBuilt, assocGet_put_self]

/-- C10 witness: registering `shop` on a manager whose configuration has no
`shop` section and whose registry already holds a connected `blog` entry
keeps the configuration and the `blog` entry unchanged and creates an entry
for `shop`. -/
theorem c10_frame_w :
    (stateOf (InitDatastore connectOk msBlogReg "shop")).map
      (fun s => s.Config) = some msBlogReg.Config
  ∧ (stateOf (InitDatastore connectOk msBlogReg "shop")).map
      (fun s => assocGet s.DBConfig "blog")
      = some (assocGet msBlogReg.DBConfig "blog")
  ∧ (stateOf (InitDatastore connectOk msBlogReg "shop")).map
      (fun s => (assocGet s.DBConfig "shop").isSome) = some true :=
  c10_frame connectOk msBlogReg cfgNone "shop" "blog" rfl (by decide)
    (by decide) (by decide) (by decide) (by decide) (by decide) (by decide)
    (by decide)
